import Mathlib

/-!
Verification of the inline cell-edit controller and duration calculator of
the sleepnest baby-care application. The definitions below are a shallow
embedding of the two table components (the sleep log and the feeding log)
and of the pure time arithmetic used by the sleep form.
-/

namespace SleepNest

/-! ### Duration calculator (sleep log form) -/

/-- A wall-clock time of day as entered through an HH:mm time input. -/
structure Clock where
  hour : Nat
  minute : Nat
  deriving DecidableEq, Repr

/-- Minutes since midnight of a clock value (Date.setHours on a same-day base). -/
def Clock.toMin (c : Clock) : Nat := c.hour * 60 + c.minute

/-- calculateDuration: both clocks are placed on the same date; when the end
instant compares strictly below the start instant, one day (1440 minutes) is
added to the end before taking differenceInMinutes. -/
def elapsedMinutes (startC endC : Clock) : Int :=
  (if (endC.toMin : Int) < (startC.toMin : Int)
    then (endC.toMin : Int) + 1440
    else (endC.toMin : Int)) - (startC.toMin : Int)

/-- Sleep type of a sleep entry. -/
inductive SleepType
  | nap
  | night
  deriving DecidableEq, Repr

/-- An advisory recommended-duration range in minutes. -/
structure DurRange where
  min : Nat
  max : Nat
  deriving DecidableEq, Repr

/-- recommendedDurations lookup: nap is 20 min to 3 h, night is 7 h to 13 h. -/
def recommendedDurations : SleepType → DurRange
  | .nap => ⟨20, 180⟩
  | .night => ⟨420, 780⟩

/-- How a duration compares to the recommended range (the yellow, green and
red colour classes of calculateDuration). -/
inductive DurationClassification
  | belowRecommended
  | withinRecommended
  | aboveRecommended
  deriving DecidableEq, Repr

/-- calculateDuration classification: strictly below the minimum is below the
recommendation, strictly above the maximum is above it, otherwise within. -/
def classify (minutes : Int) (t : SleepType) : DurationClassification :=
  if minutes < ((recommendedDurations t).min : Int) then .belowRecommended
  else if ((recommendedDurations t).max : Int) < minutes then .aboveRecommended
  else .withinRecommended

/-- createMutation of the sleep form: both clocks are placed on the entered
date and, when the end instant compares strictly below the start instant, the
end is moved one day later before the record is dispatched to the storage
collaborator. Instants are expressed in absolute minutes. -/
def createSleepTimes (day : Nat) (startC endC : Clock) : Nat × Nat :=
  if day * 1440 + endC.toMin < day * 1440 + startC.toMin
  then (day * 1440 + startC.toMin, day * 1440 + endC.toMin + 1440)
  else (day * 1440 + startC.toMin, day * 1440 + endC.toMin)

/-! ### Sleep table inline edits (single shared timeout ref, 500 ms debounce) -/

/-- An inline-edit target: a record identifier together with a field name. -/
structure EditKey where
  recordId : Nat
  fieldName : String
  deriving DecidableEq, Repr

/-- The pending debounced commit held in editTimeoutRef: target, candidate
value, and the absolute time at which the scheduled timeout fires. -/
structure PendingCommit where
  key : EditKey
  value : String
  fireAt : Nat
  deriving DecidableEq, Repr

/-- Working-memory state of the sleep table component: the open editor, the
saving indicator, the single timeout ref shared by the whole table, and the
trace of updates dispatched to the storage collaborator. -/
structure SleepTableState where
  editingId : Option Nat
  savingField : Option EditKey
  editTimeout : Option PendingCommit
  dispatched : List (EditKey × String)
  deriving DecidableEq, Repr

/-- The sleep table as mounted: nothing edited, no timer, nothing dispatched. -/
def initSleepTable : SleepTableState :=
  { editingId := none, savingField := none, editTimeout := none, dispatched := [] }

/-- handleInlineEdit of the sleep table at time now: clearTimeout on whatever
the single ref holds, mark the field as saving, and store a fresh timeout
that fires 500 ms later. -/
def sleepHandleInlineEdit (s : SleepTableState) (rid : Nat) (f v : String)
    (now : Nat) : SleepTableState :=
  { s with savingField := some ⟨rid, f⟩,
           editTimeout := some ⟨⟨rid, f⟩, v, now + 500⟩ }

/-- The body of the scheduled timeout: dispatch updateMutation.mutate for the
stored target and value, close the editor, clear the saving mark and the ref. -/
def sleepFirePending (s : SleepTableState) : SleepTableState :=
  match s.editTimeout with
  | none => s
  | some p =>
      { s with dispatched := s.dispatched ++ [(p.key, p.value)],
               editingId := none, savingField := none, editTimeout := none }

/-- Advance the clock to time T with no intervening user event: the pending
timeout fires exactly when its deadline has been reached. -/
def sleepRunTo (s : SleepTableState) (T : Nat) : SleepTableState :=
  match s.editTimeout with
  | none => s
  | some p => if p.fireAt ≤ T then sleepFirePending s else s

/-- handleClickOutside of the sleep table: clearTimeout on any pending
timeout, null the ref, and close the editor; nothing is committed. -/
def sleepClickOutside (s : SleepTableState) : SleepTableState :=
  { s with editTimeout := none, editingId := none }

/-- Number of pending commits held for a given key; the single ref can hold
at most one pending commit for the entire table. -/
def pendingFor (s : SleepTableState) (k : EditKey) : Nat :=
  match s.editTimeout with
  | none => 0
  | some p => if p.key = k then 1 else 0

/-! ### Feeding table inline edits (immediate commits, per-trigger coercion) -/

/-- The value handed to the storage update call, tagged by which JavaScript
coercion of the raw input text produced it. -/
inductive CommitValue
  | rawText (s : String)
  | parsedFloat (s : String)
  | parsedInt (s : String)
  | nullValue
  deriving DecidableEq, Repr

/-- Coercion applied by the Enter and Tab branches of handleKeyDown and by
the feeding table's handleClickOutside: only the amount field is coerced
(parseFloat, or null when the text is empty); every other field is passed
through as the raw input text. -/
def coerceKeyCommit (field v : String) : CommitValue :=
  if field = "amount" then (if v = "" then .nullValue else .parsedFloat v)
  else .rawText v

/-- Coercion performed by the per-field onBlur handlers of the feeding table:
duration is parseInt, amount is parseFloat-or-null, notes passes through. -/
def coerceBlur (field v : String) : CommitValue :=
  if field = "duration" then .parsedInt v
  else if field = "amount" then (if v = "" then .nullValue else .parsedFloat v)
  else .rawText v

/-- The coercion table exactly as the specification states it, for comparison
with the code's trigger-specific coercions: amount parses as real or null
when empty, duration parses as integer, all other fields pass through. -/
def specCoerce (field v : String) : CommitValue :=
  if field = "amount" then (if v = "" then .nullValue else .parsedFloat v)
  else if field = "duration" then .parsedInt v
  else .rawText v

/-- A feeding record as held in the query cache and displayed in the table. -/
structure FeedingRecord where
  id : Nat
  feedingType : String
  duration : Int
  amount : Option String
  notes : String
  deriving DecidableEq, Repr

/-- Working-memory state of the feeding table component. The record list is
owned by the query cache; the component never patches it locally. -/
structure FeedingState where
  editingId : Option Nat
  savingField : Option EditKey
  highlightedField : Option EditKey
  highlightClears : List Nat
  errorToasts : Nat
  successToasts : Nat
  records : List FeedingRecord
  dispatched : List (EditKey × CommitValue)
  deriving DecidableEq, Repr

/-- handleInlineEdit of the feeding table: mark the field as saving and call
updateMutation.mutate immediately; no timer is involved. -/
def feedingHandleInlineEdit (s : FeedingState) (k : EditKey) (v : CommitValue) :
    FeedingState :=
  { s with savingField := some k, dispatched := s.dispatched ++ [(k, v)] }

/-- Resolution of a feeding update with success at time now: both onSuccess
callbacks run — the cache is invalidated, two success toasts are shown, the
field is highlighted with a clear scheduled 1000 ms later, the editor closes
and the saving mark is removed. -/
def feedingCommitSuccess (s : FeedingState) (k : EditKey) (now : Nat) :
    FeedingState :=
  { s with successToasts := s.successToasts + 2,
           highlightedField := some k,
           highlightClears := s.highlightClears ++ [now + 1000],
           editingId := none, savingField := none }

/-- Resolution of a feeding update with failure: both onError callbacks run —
two error toasts are shown and the saving mark is removed; neither editingId
nor the record list is touched. -/
def feedingCommitError (s : FeedingState) : FeedingState :=
  { s with savingField := none, errorToasts := s.errorToasts + 2 }

/-- handleKeyDown, Enter branch, on a feeding text input: preventDefault and
commit the draft through handleInlineEdit with the key-event coercion. -/
def feedingInputEnter (s : FeedingState) (rid : Nat) (field draft : String) :
    FeedingState :=
  feedingHandleInlineEdit s ⟨rid, field⟩ (coerceKeyCommit field draft)

/-- handleKeyDown, Escape branch, on a feeding text input (duration, amount
or notes): setEditingId(null) followed by target.blur(); the programmatic
blur fires the input's onBlur handler, which commits the current input text
through handleInlineEdit with the blur coercion. -/
def feedingInputEscape (s : FeedingState) (rid : Nat) (field draft : String) :
    FeedingState :=
  feedingHandleInlineEdit { s with editingId := none } ⟨rid, field⟩
    (coerceBlur field draft)

/-- handleClickOutside of the feeding table: when an editor is open, the
active editing input (if any) has its value read, coerced with the key-event
coercion and committed for the record being edited, provided that record is
still in the list; in every case editingId is then cleared. -/
def feedingClickOutside (s : FeedingState)
    (activeInput : Option (String × String)) : FeedingState :=
  match s.editingId, activeInput with
  | some rid, some fv =>
      if s.records.any (fun r => r.id == rid) then
        { feedingHandleInlineEdit s ⟨rid, fv.1⟩ (coerceKeyCommit fv.1 fv.2) with
            editingId := none }
      else { s with editingId := none }
  | _, _ => { s with editingId := none }

/-! ### Highlight signal (shared pattern of both tables) -/

/-- The highlighted-field slot together with the clear timers scheduled by
setTimeout; timers are never cancelled by the code. -/
structure HighlightState where
  highlighted : Option EditKey
  clearTimers : List Nat
  deriving DecidableEq, Repr

/-- The onSuccess highlight step: show the mark for the committed target and
schedule setHighlightedField(null) 1000 ms later; any timer already
outstanding is left running. -/
def markHighlight (s : HighlightState) (k : EditKey) (now : Nat) : HighlightState :=
  { highlighted := some k, clearTimers := s.clearTimers ++ [now + 1000] }

/-- Advance the clock to time T with no intervening event: every clear timer
due by T fires (each sets the highlighted field to none) and is removed. -/
def runClearsTo (s : HighlightState) (T : Nat) : HighlightState :=
  { highlighted :=
      if s.clearTimers.any (fun ft => decide (ft ≤ T)) then none else s.highlighted,
    clearTimers := s.clearTimers.filter (fun ft => decide (T < ft)) }

/-- A concrete feeding-table state used for evaluations: record 7 (a breast
feeding of 30 minutes) is in the list and its row is open for editing. -/
def feedingCexStart : FeedingState :=
  { editingId := some 7, savingField := none, highlightedField := none,
    highlightClears := [], errorToasts := 0, successToasts := 0,
    records := [{ id := 7, feedingType := "breast", duration := 30,
                  amount := none, notes := "" }],
    dispatched := [] }

/-- C1: for every pair of same-day clock times, elapsedMinutes is a
non-negative number of minutes, and whenever the end clock is chronologically
before the start clock the result equals (24 hours minus the start clock)
plus the end clock in minutes: the end is treated as the following day. -/
theorem elapsedMinutes_nonneg_rollover (startC endC : Clock)
    (hsh : startC.hour < 24) (hsm : startC.minute < 60)
    (heh : endC.hour < 24) (hem : endC.minute < 60) :
    0 ≤ elapsedMinutes startC endC ∧
      (endC.toMin < startC.toMin →
        elapsedMinutes startC endC
          = (1440 - (startC.toMin : Int)) + (endC.toMin : Int)) := by
  unfold elapsedMinutes Clock.toMin at *
  constructor
  · split <;> omega
  · intro h
    split <;> omega

/-- Witness for C1 at the concrete pair 22:00 and 06:00. -/
theorem elapsedMinutes_nonneg_rollover_witness :
    0 ≤ elapsedMinutes ⟨22, 0⟩ ⟨6, 0⟩ ∧
      (Clock.toMin ⟨6, 0⟩ < Clock.toMin ⟨22, 0⟩ →
        elapsedMinutes ⟨22, 0⟩ ⟨6, 0⟩
          = (1440 - (Clock.toMin ⟨22, 0⟩ : Int)) + (Clock.toMin ⟨6, 0⟩ : Int)) :=
  elapsedMinutes_nonneg_rollover ⟨22, 0⟩ ⟨6, 0⟩
    (by decide) (by decide) (by decide) (by decide)

/-- C2: classification uses the inclusive ranges nap 20 to 180 and night 420
to 780: strictly below the minimum is belowRecommended, strictly above the
maximum is aboveRecommended, every value in between including the boundaries
is withinRecommended; and 22:00 to 06:00 night sleep gives 480 minutes,
classified withinRecommended. -/
theorem classify_inclusive_ranges (m : Int) (t : SleepType) :
    (m < ((recommendedDurations t).min : Int) → classify m t = .belowRecommended) ∧
    (((recommendedDurations t).max : Int) < m → classify m t = .aboveRecommended) ∧
    (((recommendedDurations t).min : Int) ≤ m →
      m ≤ ((recommendedDurations t).max : Int) → classify m t = .withinRecommended) ∧
    elapsedMinutes ⟨22, 0⟩ ⟨6, 0⟩ = 480 ∧
    classify 480 .night = .withinRecommended := by
  refine ⟨fun h => ?_, fun h => ?_, fun h1 h2 => ?_, by decide, by decide⟩ <;>
    cases t <;>
    simp only [classify, recommendedDurations] at * <;>
    split_ifs <;>
    first
      | rfl
      | (exfalso; omega)

/-- Witness for C2 at concrete minute counts in each region of each range. -/
theorem classify_inclusive_ranges_witness :
    classify 10 .nap = .belowRecommended ∧
    classify 200 .nap = .aboveRecommended ∧
    classify 20 .nap = .withinRecommended ∧
    classify 180 .nap = .withinRecommended ∧
    classify 480 .night = .withinRecommended :=
  ⟨(classify_inclusive_ranges 10 .nap).1 (by decide),
   (classify_inclusive_ranges 200 .nap).2.1 (by decide),
   (classify_inclusive_ranges 20 .nap).2.2.1 (by decide) (by decide),
   (classify_inclusive_ranges 180 .nap).2.2.1 (by decide) (by decide),
   (classify_inclusive_ranges 480 .night).2.2.1 (by decide) (by decide)⟩

/-- C10: every record dispatched by the sleep form's create mutation has its
end instant at or after its start instant — when the entered end clock is
earlier than the start clock, one calendar day is added to the end before
dispatch — so the duration derived from the stored times is non-negative. -/
theorem createSleepTimes_end_ge_start (day : Nat) (startC endC : Clock)
    (hsh : startC.hour < 24) (hsm : startC.minute < 60) :
    (createSleepTimes day startC endC).1 ≤ (createSleepTimes day startC endC).2 ∧
    0 ≤ ((createSleepTimes day startC endC).2 : Int)
          - ((createSleepTimes day startC endC).1 : Int) := by
  unfold createSleepTimes Clock.toMin at *
  split <;> constructor <;> simp <;> omega

/-- Witness for C10 at a rollover instance: 22:00 to 06:00 on day 0. -/
theorem createSleepTimes_end_ge_start_witness :
    (createSleepTimes 0 ⟨22, 0⟩ ⟨6, 0⟩).1 ≤ (createSleepTimes 0 ⟨22, 0⟩ ⟨6, 0⟩).2 ∧
    0 ≤ ((createSleepTimes 0 ⟨22, 0⟩ ⟨6, 0⟩).2 : Int)
          - ((createSleepTimes 0 ⟨22, 0⟩ ⟨6, 0⟩).1 : Int) :=
  createSleepTimes_end_ge_start 0 ⟨22, 0⟩ ⟨6, 0⟩ (by decide) (by decide)

/-- C3: at any instant at most one pending commit exists per (recordId,
fieldName); scheduling a second commit for the same target before the first
fires cancels the first, so only the second value is ever dispatched; sleep
edits dispatch only after the 500 ms trailing delay that restarts on the
superseding edit, and feeding edits dispatch immediately with no delay. -/
theorem sleepDebounce_supersede_same_key (s : SleepTableState) (rid : Nat)
    (f v1 v2 : String) (t1 t2 T : Nat)
    (_h0 : s.editTimeout = none) (_h1 : t1 ≤ t2) (_h2 : t2 < t1 + 500)
    (h3 : t2 + 500 ≤ T) :
    (∀ st k, pendingFor st k ≤ 1) ∧
    (sleepHandleInlineEdit (sleepHandleInlineEdit s rid f v1 t1) rid f v2 t2).editTimeout
        = some ⟨⟨rid, f⟩, v2, t2 + 500⟩ ∧
    (sleepRunTo (sleepHandleInlineEdit (sleepHandleInlineEdit s rid f v1 t1) rid f v2 t2) T).dispatched
        = s.dispatched ++ [(⟨rid, f⟩, v2)] ∧
    (sleepRunTo (sleepHandleInlineEdit (sleepHandleInlineEdit s rid f v1 t1) rid f v2 t2) T).editTimeout
        = none ∧
    (∀ U, U < t2 + 500 →
      (sleepRunTo (sleepHandleInlineEdit (sleepHandleInlineEdit s rid f v1 t1) rid f v2 t2) U).dispatched
        = s.dispatched) ∧
    (∀ fs k cv, (feedingHandleInlineEdit fs k cv).dispatched = fs.dispatched ++ [(k, cv)]) := by
  refine ⟨?_, rfl, ?_, ?_, ?_, fun fs k cv => rfl⟩
  · intro st k
    cases h : st.editTimeout with
    | none => simp [pendingFor, h]
    | some p =>
        simp only [pendingFor, h]
        split <;> decide
  · simp [sleepRunTo, sleepHandleInlineEdit, sleepFirePending, h3]
  · simp [sleepRunTo, sleepHandleInlineEdit, sleepFirePending, h3]
  · intro U hU
    have hn : ¬ (t2 + 500 ≤ U) := by omega
    simp [sleepRunTo, sleepHandleInlineEdit, hn]

/-- Witness for C3: schedule value a for (1, notes) at time 0, supersede with
value b at time 100, run to time 1000 — only b is ever dispatched. -/
theorem sleepDebounce_supersede_same_key_witness :
    (sleepRunTo (sleepHandleInlineEdit (sleepHandleInlineEdit initSleepTable 1 "notes" "a" 0) 1 "notes" "b" 100) 1000).dispatched
      = [(⟨1, "notes"⟩, "b")] := by
  have h := sleepDebounce_supersede_same_key initSleepTable 1 "notes" "a" "b"
    0 100 1000 rfl (by decide) (by decide) (by decide)
  simpa using h.2.2.1

/-- C4 counterexample: in the sleep table, scheduling a commit for
(1, sleepType) while a commit for the different key (1, notes) is pending
cancels the latter — the pending count for (1, notes) drops to 0 and its
value a is never dispatched, so pending commits for different keys are not
independent. -/
theorem sleepDebounce_crossKey_cancels_cex :
    pendingFor (sleepHandleInlineEdit (sleepHandleInlineEdit initSleepTable 1 "notes" "a" 0) 1 "sleepType" "b" 100) ⟨1, "notes"⟩ = 0 ∧
    (sleepRunTo (sleepHandleInlineEdit (sleepHandleInlineEdit initSleepTable 1 "notes" "a" 0) 1 "sleepType" "b" 100) 5000).dispatched
      = [(⟨1, "sleepType"⟩, "b")] := by
  constructor <;> rfl

/-- C4 amended: the sleep table holds a single timer slot shared by every
key — scheduling a commit for any (recordId, fieldName) cancels whatever
commit was pending, including one for a different key, leaves exactly the new
commit pending, and only that commit can subsequently dispatch. -/
theorem sleepDebounce_single_slot (s : SleepTableState) (rid : Nat)
    (f v : String) (t : Nat) :
    (sleepHandleInlineEdit s rid f v t).editTimeout = some ⟨⟨rid, f⟩, v, t + 500⟩ ∧
    (∀ k, k ≠ ⟨rid, f⟩ → pendingFor (sleepHandleInlineEdit s rid f v t) k = 0) ∧
    (∀ T, (sleepRunTo (sleepHandleInlineEdit s rid f v t) T).dispatched
        = s.dispatched ++ (if t + 500 ≤ T then [(⟨rid, f⟩, v)] else [])) := by
  refine ⟨rfl, ?_, ?_⟩
  · intro k hk
    simp only [pendingFor, sleepHandleInlineEdit]
    rw [if_neg]
    exact fun h => hk h.symm
  · intro T
    by_cases hT : t + 500 ≤ T
    · simp [sleepRunTo, sleepHandleInlineEdit, sleepFirePending, hT]
    · simp [sleepRunTo, sleepHandleInlineEdit, hT]

/-- Witness for C4 amended at the same cross-key instance as the
counterexample. -/
theorem sleepDebounce_single_slot_witness :
    (sleepHandleInlineEdit (sleepHandleInlineEdit initSleepTable 1 "notes" "a" 0) 1 "sleepType" "b" 100).editTimeout
      = some ⟨⟨1, "sleepType"⟩, "b", 600⟩ ∧
    pendingFor (sleepHandleInlineEdit (sleepHandleInlineEdit initSleepTable 1 "notes" "a" 0) 1 "sleepType" "b" 100) ⟨1, "notes"⟩ = 0 := by
  have h := sleepDebounce_single_slot
    (sleepHandleInlineEdit initSleepTable 1 "notes" "a" 0) 1 "sleepType" "b" 100
  exact ⟨h.1, h.2.1 ⟨1, "notes"⟩ (by decide)⟩

/-- C5 counterexample: record 7 is being edited, its duration commit is
dispatched and the update fails; the feeding table leaves editingId at
record 7 — the edit target is not returned to the idle state as the claim
requires. -/
theorem feedingError_keeps_editing_cex :
    (feedingCommitError (feedingHandleInlineEdit feedingCexStart ⟨7, "duration"⟩ (CommitValue.parsedInt "45"))).editingId = some 7 ∧
    ¬ (feedingCommitError (feedingHandleInlineEdit feedingCexStart ⟨7, "duration"⟩ (CommitValue.parsedInt "45"))).editingId = none := by
  constructor <;> decide

/-- C5 amended: whenever the update operation fails, failure notices are
surfaced and the saving indicator is cleared, the value is never applied to
the in-memory record list (the displayed field keeps its pre-edit value), and
the highlight is untouched; but the edit target is left exactly as it was —
in the feeding table it stays Editing rather than being returned to Idle. -/
theorem feedingError_outcome (s : FeedingState) (k : EditKey) (v : CommitValue) :
    (feedingCommitError (feedingHandleInlineEdit s k v)).records = s.records ∧
    (feedingCommitError (feedingHandleInlineEdit s k v)).errorToasts = s.errorToasts + 2 ∧
    (feedingCommitError (feedingHandleInlineEdit s k v)).savingField = none ∧
    (feedingCommitError (feedingHandleInlineEdit s k v)).editingId = s.editingId ∧
    (feedingCommitError (feedingHandleInlineEdit s k v)).highlightedField = s.highlightedField :=
  ⟨rfl, rfl, rfl, rfl, rfl⟩

/-- C6: pressing Escape on the duration input of record 7 with draft 45
closes the editor but also dispatches a commit of the draft: the Escape
branch calls target.blur(), and the programmatic blur fires the input's
onBlur handler, which commits parseInt of the draft. The specified behaviour
(discard with no commit) is contradicted by this dispatch. -/
theorem feedingEscape_dispatches_commit :
    (feedingInputEscape feedingCexStart 7 "duration" "45").editingId = none ∧
    (feedingInputEscape feedingCexStart 7 "duration" "45").dispatched
      = [(⟨7, "duration"⟩, CommitValue.parsedInt "45")] := by
  constructor <;> decide

/-- C7: an outside pointer interaction while a field is edited commits the
focused input's coerced value for a feeding record before leaving edit mode,
while for a sleep record it discards without committing and cancels any
pending settle timer, which therefore never dispatches; both tables end with
the edit target idle. -/
theorem clickOutside_asymmetry (s : FeedingState) (rid : Nat) (f v : String)
    (hedit : s.editingId = some rid)
    (hrec : s.records.any (fun r => r.id == rid) = true) :
    ((feedingClickOutside s (some (f, v))).dispatched
        = s.dispatched ++ [(⟨rid, f⟩, coerceKeyCommit f v)] ∧
      (feedingClickOutside s (some (f, v))).editingId = none) ∧
    (∀ ss : SleepTableState, ∀ T : Nat,
      (sleepClickOutside ss).editingId = none ∧
      (sleepClickOutside ss).editTimeout = none ∧
      (sleepRunTo (sleepClickOutside ss) T).dispatched = ss.dispatched) := by
  refine ⟨⟨?_, ?_⟩, fun ss T => ⟨rfl, rfl, rfl⟩⟩
  · simp [feedingClickOutside, hedit, hrec, feedingHandleInlineEdit]
  · simp [feedingClickOutside, hedit, hrec]

/-- Witness for C7: an outside click while record 7's notes field holds the
draft hi, and an outside click on a sleep table with a pending commit. -/
theorem clickOutside_asymmetry_witness :
    (feedingClickOutside feedingCexStart (some ("notes", "hi"))).dispatched
      = [] ++ [(⟨7, "notes"⟩, coerceKeyCommit "notes" "hi")] ∧
    (feedingClickOutside feedingCexStart (some ("notes", "hi"))).editingId = none ∧
    (sleepRunTo (sleepClickOutside (sleepHandleInlineEdit initSleepTable 1 "notes" "a" 0)) 5000).dispatched = [] := by
  have h := clickOutside_asymmetry feedingCexStart 7 "notes" "hi" rfl (by decide)
  exact ⟨h.1.1, h.1.2,
    (h.2 (sleepHandleInlineEdit initSleepTable 1 "notes" "a" 0) 5000).2.2⟩

/-- C8 counterexample: a mark for (7, duration) is created at time 0 and a
later mark for the same key at time 500; at time 1000 the first mark's clear
timer — which was never cancelled — fires and clears the later mark only
500 ms after its creation, not the full 1000 ms the claim requires (nothing
replaced the earlier expiry: both timers are outstanding after the second
mark). -/
theorem highlight_remark_cleared_early_cex :
    (runClearsTo (markHighlight (markHighlight ⟨none, []⟩ ⟨7, "duration"⟩ 0) ⟨7, "duration"⟩ 500) 1000).highlighted = none ∧
    (markHighlight (markHighlight ⟨none, []⟩ ⟨7, "duration"⟩ 0) ⟨7, "duration"⟩ 500).clearTimers = [1000, 1500] := by
  constructor <;> decide

/-- C8 amended: every successful commit creates a highlight mark and
schedules a clear 1000 ms after that commit; clear timers are never cancelled
or replaced, so a later mark inherits every outstanding timer and is cleared
as soon as any of them fires — possibly earlier than 1000 ms after its own
creation; only a mark created with no outstanding timer is visible for the
full window and cleared exactly at its 1000 ms deadline. -/
theorem highlight_mark_timers (s : HighlightState) (k : EditKey) (t T : Nat) :
    (markHighlight s k t).highlighted = some k ∧
    (markHighlight s k t).clearTimers = s.clearTimers ++ [t + 1000] ∧
    (s.clearTimers = [] → T < t + 1000 →
      (runClearsTo (markHighlight s k t) T).highlighted = some k) ∧
    (t + 1000 ≤ T → (runClearsTo (markHighlight s k t) T).highlighted = none) ∧
    (∀ ft, ft ∈ s.clearTimers → ft ≤ T →
      (runClearsTo (markHighlight s k t) T).highlighted = none) := by
  refine ⟨rfl, rfl, ?_, ?_, ?_⟩
  · intro h0 hT
    have hn : ¬ (t + 1000 ≤ T) := by omega
    simp [runClearsTo, markHighlight, h0, hn]
  · intro hT
    have hany : ((s.clearTimers ++ [t + 1000]).any (fun ft => decide (ft ≤ T))) = true :=
      List.any_eq_true.mpr ⟨t + 1000, by simp, by simpa using hT⟩
    simp [runClearsTo, markHighlight, hany]
  · intro ft hmem hle
    have hany : ((s.clearTimers ++ [t + 1000]).any (fun ft => decide (ft ≤ T))) = true :=
      List.any_eq_true.mpr ⟨ft, by simp [hmem], by simpa using hle⟩
    simp [runClearsTo, markHighlight, hany]

/-- Witness for C8 amended: a lone mark at time 0 is still shown at 999 ms
and cleared at 1000 ms. -/
theorem highlight_mark_timers_witness :
    (runClearsTo (markHighlight ⟨none, []⟩ ⟨7, "duration"⟩ 0) 999).highlighted
      = some ⟨7, "duration"⟩ ∧
    (runClearsTo (markHighlight ⟨none, []⟩ ⟨7, "duration"⟩ 0) 1000).highlighted = none :=
  ⟨(highlight_mark_timers ⟨none, []⟩ ⟨7, "duration"⟩ 0 999).2.2.1 rfl (by decide),
   (highlight_mark_timers ⟨none, []⟩ ⟨7, "duration"⟩ 0 1000).2.2.2.1 (by decide)⟩

/-- C9 counterexample: committing the duration draft 45 with the Enter key
dispatches the raw text, not the integer parse the claim requires for every
trigger — the key-event coercion differs from the per-field coercion table at
the duration field. -/
theorem duration_enter_coercion_cex :
    coerceKeyCommit "duration" "45" = CommitValue.rawText "45" ∧
    coerceKeyCommit "duration" "45" ≠ specCoerce "duration" "45" ∧
    (feedingInputEnter feedingCexStart 7 "duration" "45").dispatched
      = [(⟨7, "duration"⟩, CommitValue.rawText "45")] := by
  refine ⟨by decide, by decide, by decide⟩

/-- C9 amended: amount is coerced (parse as real, or null when empty) under
every trigger, and the blur handlers implement the full coercion table
(duration parses as integer, others pass through); but under Enter, Tab-away
and outside click every field other than amount — duration included — passes
through as raw text, so the integer parse of duration happens only on blur. -/
theorem feeding_coercion_by_trigger (f v : String) :
    coerceBlur f v = specCoerce f v ∧
    (f ≠ "duration" → coerceKeyCommit f v = specCoerce f v) ∧
    coerceKeyCommit "duration" v = CommitValue.rawText v := by
  refine ⟨?_, ?_, by simp [coerceKeyCommit]⟩
  · unfold coerceBlur specCoerce
    by_cases h1 : f = "duration"
    · subst h1; simp
    · by_cases h2 : f = "amount"
      · subst h2; simp
      · simp [h1, h2]
  · intro h
    unfold coerceKeyCommit specCoerce
    by_cases h2 : f = "amount"
    · subst h2; simp
    · simp [h, h2]

/-- Witness for C9 amended: the blur coercion of duration and the key-event
coercion of notes both agree with the coercion table. -/
theorem feeding_coercion_by_trigger_witness :
    coerceBlur "duration" "45" = specCoerce "duration" "45" ∧
    coerceKeyCommit "notes" "hi" = specCoerce "notes" "hi" :=
  ⟨(feeding_coercion_by_trigger "duration" "45").1,
   (feeding_coercion_by_trigger "notes" "hi").2.1 (by decide)⟩

end SleepNest
